import Mathlib

/-!
Shallow embedding of the voltr-alert-service event classification engine
(`src/alert-service.ts`).  JavaScript numbers are modelled as exact values
extended with the IEEE special points `Infinity`, `-Infinity` and `NaN`
(`JsNum`): every arithmetic operation the service performs is exact on the
inputs it receives (JSON numbers), so only the finite/non-finite distinction
and comparisons matter, and those follow the JS semantics below.
`Map` objects are modelled as association lists, `Date.now()` as an explicit
`now : Int` argument (milliseconds), and the `??` operator as `Option.getD`.
-/

namespace Voltr

/-- A JavaScript number: a finite (exact) value or one of the IEEE special
points produced by division by zero (`Infinity`, `-Infinity`, `NaN`). -/
inductive JsNum where
  | nan
  | negInf
  | inf
  | num (val : ℚ)
deriving DecidableEq, Repr

/-- Kernel-computable exact rational subtraction (`mkRat` based; proved
equal to standard subtraction in `qSub_eq` below). -/
def qSub (a b : ℚ) : ℚ :=
  mkRat (a.num * b.den - b.num * a.den) (a.den * b.den)

/-- Kernel-computable exact rational multiplication (proved equal to
standard multiplication in `qMul_eq` below). -/
def qMul (a b : ℚ) : ℚ :=
  mkRat (a.num * b.num) (a.den * b.den)

/-- Kernel-computable exact rational inverse (proved equal to the standard
inverse in `qInv_eq` below). -/
def qInv (b : ℚ) : ℚ :=
  mkRat (Int.sign b.num * b.den) b.num.natAbs

/-- Kernel-computable exact rational division (proved equal to standard
division in `qDiv_eq` below). -/
def qDiv (a b : ℚ) : ℚ :=
  qMul a (qInv b)

/-- JS division, including the zero-denominator cases: `x/0` is `Infinity`
for positive `x`, `-Infinity` for negative `x` and `NaN` for `0/0`. -/
def jsDiv (x y : JsNum) : JsNum :=
  match x, y with
  | .nan, _ => .nan
  | _, .nan => .nan
  | .num a, .num b =>
      if b = 0 then (if 0 < a then .inf else if a < 0 then .negInf else .nan)
      else .num (qDiv a b)
  | .inf, .num b => if 0 ≤ b then .inf else .negInf
  | .negInf, .num b => if 0 ≤ b then .negInf else .inf
  | .num _, .inf => .num 0
  | .num _, .negInf => .num 0
  | _, _ => .nan

/-- JS multiplication on the extended numbers. -/
def jsMul (x y : JsNum) : JsNum :=
  match x, y with
  | .nan, _ => .nan
  | _, .nan => .nan
  | .num a, .num b => .num (qMul a b)
  | .inf, .num b => if b = 0 then .nan else if 0 < b then .inf else .negInf
  | .num a, .inf => if a = 0 then .nan else if 0 < a then .inf else .negInf
  | .negInf, .num b => if b = 0 then .nan else if 0 < b then .negInf else .inf
  | .num a, .negInf => if a = 0 then .nan else if 0 < a then .negInf else .inf
  | .inf, .inf => .inf
  | .negInf, .negInf => .inf
  | .inf, .negInf => .negInf
  | .negInf, .inf => .negInf

/-- JS `Math.abs`. -/
def jsAbs (x : JsNum) : JsNum :=
  match x with
  | .nan => .nan
  | .inf => .inf
  | .negInf => .inf
  | .num a => .num |a|

/-- JS `>` comparison: any comparison with `NaN` is false. -/
def jsGt (x y : JsNum) : Bool :=
  match x, y with
  | .nan, _ => false
  | _, .nan => false
  | .num a, .num b => decide (b < a)
  | .inf, .inf => false
  | .inf, _ => true
  | _, .inf => false
  | .negInf, .negInf => false
  | .negInf, _ => false
  | _, .negInf => true

/-- JS `>=` comparison: any comparison with `NaN` is false. -/
def jsGe (x y : JsNum) : Bool :=
  match x, y with
  | .nan, _ => false
  | _, .nan => false
  | .num a, .num b => decide (b ≤ a)
  | .inf, _ => true
  | _, .inf => false
  | _, .negInf => true
  | .negInf, _ => false

/-- Holds when `x` is a finite number (not `NaN`, `Infinity` or `-Infinity`). -/
def JsNum.isFinite (x : JsNum) : Bool :=
  match x with
  | .num _ => true
  | _ => false

/-- Association-list lookup, modelling `Map.get`. -/
def lookupEntry {α : Type} (m : List (String × α)) (k : String) : Option α :=
  match m with
  | [] => none
  | (k2, v) :: rest => if k2 = k then some v else lookupEntry rest k

/-- Association-list update, modelling `Map.set`. -/
def setEntry {α : Type} (m : List (String × α)) (k : String) (v : α) :
    List (String × α) :=
  match m with
  | [] => [(k, v)]
  | (k2, v2) :: rest => if k2 = k then (k2, v) :: rest else (k2, v2) :: setEntry rest k v

/-- The decoded event payload (`VaultEvent.eventData` in `src/types`):
all numeric fields are optional JSON numbers, hence finite rationals. -/
structure EventData where
  vault : String
  user : Option String := none
  strategy : Option String := none
  manager : Option String := none
  userAmountAssetDeposited : Option ℚ := none
  userAmountAssetWithdrawn : Option ℚ := none
  vaultAmountAssetDeposited : Option ℚ := none
  vaultAmountAssetWithdrawn : Option ℚ := none
  vaultAssetTotalValueBefore : Option ℚ := none
  vaultAssetTotalValueAfter : Option ℚ := none
deriving DecidableEq, Repr

/-- A decoded domain event (`VaultEvent`). -/
structure VaultEvent where
  eventName : String
  eventData : EventData
  timestamp : String := ""
  service : String := "voltr-vault-listener"
deriving DecidableEq, Repr

/-- The origin filter of `processLogLine`: only events whose `service` tag is
`voltr-vault-listener` (and which carry an `eventData` payload, always present
here) are processed; everything else is silently dropped. -/
def acceptsEvent (e : VaultEvent) : Bool :=
  e.service = "voltr-vault-listener"

/-- The alert-threshold block of `CONFIG`. -/
structure Thresholds where
  largeVaultDepositPercent : ℚ
  largeVaultWithdrawalPercent : ℚ
  largeStrategyMovePercent : ℚ
  largeStrategyPnlPercent : ℚ
  highFrequencyEvents : Nat
  highFrequencyWindow : Int
deriving Repr

/-- The rate-limiting block of `CONFIG`. -/
structure RateLimiting where
  infoDelay : Int
  criticalDelay : Int
  groupingWindow : Int
deriving Repr

/-- The service configuration (`CONFIG` in `src/alert-service.ts`). -/
structure ServiceConfig where
  thresholds : Thresholds
  rateLimiting : RateLimiting
deriving Repr

/-- Source `CONFIG` with the values from the source. -/
def CONFIG : ServiceConfig :=
  { thresholds :=
      { largeVaultDepositPercent := mkRat 1 10
        largeVaultWithdrawalPercent := mkRat 1 10
        largeStrategyMovePercent := mkRat 1 10
        largeStrategyPnlPercent := mkRat 1 100
        highFrequencyEvents := 10
        highFrequencyWindow := 60000 }
    rateLimiting :=
      { infoDelay := 30000
        criticalDelay := 300000
        groupingWindow := 10000 } }

/-- Alert severity: which send path a candidate takes (`sendInfoAlert` versus
`sendCriticalAlert`). -/
inductive Sev where
  | info
  | critical
deriving DecidableEq, Repr

/-- An alert candidate: the union of the field sets of the `AlertData`
variants, exactly as the object literals in the handlers build them
(absent fields stay `none`). -/
structure AlertCandidate where
  type : String
  vault : String
  timestamp : String := ""
  amount : Option JsNum := none
  user : Option String := none
  strategy : Option String := none
  manager : Option String := none
  percentageChange : Option JsNum := none
  percentage : Option JsNum := none
  threshold : Option JsNum := none
  pnl : Option JsNum := none
  pnlPercent : Option JsNum := none
  pnlToAmountRatio : Option JsNum := none
  eventType : Option String := none
  rate : Option Nat := none
  timeWindow : Option String := none
deriving DecidableEq, Repr

/-- Source `vaultAssetTotalValueBefore ?? 1` — nullish coalescing: the default `1`
applies only when the field is absent, not when it is present and zero. -/
def totalBefore (d : EventData) : ℚ :=
  d.vaultAssetTotalValueBefore.getD 1

/-- Source `vaultAssetTotalValueAfter ?? 0`. -/
def totalAfter (d : EventData) : ℚ :=
  d.vaultAssetTotalValueAfter.getD 0

/-- Source `((totalValueAfter - totalValueBefore) / totalValueBefore) * 100`. -/
def pctChange (d : EventData) : JsNum :=
  jsMul (jsDiv (.num (qSub (totalAfter d) (totalBefore d))) (.num (totalBefore d))) (.num 100)

/-- Source `(amount / totalValueBefore) * 100`. -/
def txnPercent (amount : ℚ) (d : EventData) : JsNum :=
  jsMul (jsDiv (.num amount) (.num (totalBefore d))) (.num 100)

/-- Source `pnl = totalValueAfter - totalValueBefore` (exact on JSON numbers). -/
def pnlOf (d : EventData) : ℚ :=
  qSub (totalAfter d) (totalBefore d)

/-- Source `(pnl / totalValueBefore) * 100`. -/
def pnlPercentOf (d : EventData) : JsNum :=
  jsMul (jsDiv (.num (pnlOf d)) (.num (totalBefore d))) (.num 100)

/-- Source `Math.abs(pnl / amount)`: `NaN` when both are zero, `Infinity` when only
`amount` is. -/
def pnlRatio (amount : ℚ) (d : EventData) : JsNum :=
  jsAbs (jsDiv (.num (pnlOf d)) (.num amount))

/-- Source `handleVaultDeposit` (src/alert-service.ts:170-203): one unconditional
Info candidate, plus a LargeTransaction candidate when the transaction
percentage strictly exceeds the configured threshold. -/
def handleVaultDeposit (e : VaultEvent) : List (Sev × AlertCandidate) :=
  let d := e.eventData
  let amount : ℚ := d.userAmountAssetDeposited.getD 0
  [(Sev.info,
    { type := "vault_deposit"
      amount := some (.num amount)
      vault := d.vault
      user := d.user
      percentageChange := some (pctChange d)
      timestamp := e.timestamp })] ++
  (if jsGt (txnPercent amount d) (.num (qMul CONFIG.thresholds.largeVaultDepositPercent 100)) then
    [(Sev.critical,
      { type := "large_vault_deposit"
        amount := some (.num amount)
        percentage := some (txnPercent amount d)
        threshold := some (.num (qMul CONFIG.thresholds.largeVaultDepositPercent 100))
        vault := d.vault
        user := d.user
        timestamp := e.timestamp })]
  else [])

/-- Source `handleVaultWithdrawal` (src/alert-service.ts:205-241). -/
def handleVaultWithdrawal (e : VaultEvent) : List (Sev × AlertCandidate) :=
  let d := e.eventData
  let amount : ℚ := d.userAmountAssetWithdrawn.getD 0
  [(Sev.info,
    { type := "vault_withdrawal"
      amount := some (.num amount)
      vault := d.vault
      user := d.user
      percentageChange := some (pctChange d)
      timestamp := e.timestamp })] ++
  (if jsGt (txnPercent amount d) (.num (qMul CONFIG.thresholds.largeVaultWithdrawalPercent 100)) then
    [(Sev.critical,
      { type := "large_vault_withdrawal"
        amount := some (.num amount)
        percentage := some (txnPercent amount d)
        threshold := some (.num (qMul CONFIG.thresholds.largeVaultWithdrawalPercent 100))
        vault := d.vault
        user := d.user
        timestamp := e.timestamp })]
  else [])

/-- Source `handleStrategyDeposit` (src/alert-service.ts:243-298): one
unconditional Info candidate, a StrategyPnL candidate when the PnL-to-amount
ratio strictly exceeds its threshold, and independently a LargeTransaction
candidate when the transaction percentage strictly exceeds its threshold. -/
def handleStrategyDeposit (e : VaultEvent) : List (Sev × AlertCandidate) :=
  let d := e.eventData
  let amount : ℚ := d.vaultAmountAssetDeposited.getD 0
  [(Sev.info,
    { type := "strategy_deposit"
      amount := some (.num amount)
      vault := d.vault
      strategy := d.strategy
      manager := d.manager
      percentageChange := some (txnPercent amount d)
      pnl := some (.num (pnlOf d))
      pnlPercent := some (pnlPercentOf d)
      timestamp := e.timestamp })] ++
  (if jsGt (pnlRatio amount d) (.num CONFIG.thresholds.largeStrategyPnlPercent) then
    [(Sev.critical,
      { type := "strategy_significant_pnl"
        amount := some (.num amount)
        pnl := some (.num (pnlOf d))
        pnlPercent := some (pnlPercentOf d)
        pnlToAmountRatio := some (pnlRatio amount d)
        threshold := some (.num CONFIG.thresholds.largeStrategyPnlPercent)
        vault := d.vault
        strategy := d.strategy
        manager := d.manager
        timestamp := e.timestamp })]
  else []) ++
  (if jsGt (txnPercent amount d) (.num (qMul CONFIG.thresholds.largeStrategyMovePercent 100)) then
    [(Sev.critical,
      { type := "large_strategy_deposit"
        amount := some (.num amount)
        percentage := some (txnPercent amount d)
        threshold := some (.num (qMul CONFIG.thresholds.largeStrategyMovePercent 100))
        vault := d.vault
        strategy := d.strategy
        manager := d.manager
        timestamp := e.timestamp })]
  else [])

/-- Source `handleStrategyWithdrawal` (src/alert-service.ts:300-355). -/
def handleStrategyWithdrawal (e : VaultEvent) : List (Sev × AlertCandidate) :=
  let d := e.eventData
  let amount : ℚ := d.vaultAmountAssetWithdrawn.getD 0
  [(Sev.info,
    { type := "strategy_withdrawal"
      amount := some (.num amount)
      vault := d.vault
      strategy := d.strategy
      manager := d.manager
      percentageChange := some (txnPercent amount d)
      pnl := some (.num (pnlOf d))
      pnlPercent := some (pnlPercentOf d)
      timestamp := e.timestamp })] ++
  (if jsGt (pnlRatio amount d) (.num CONFIG.thresholds.largeStrategyPnlPercent) then
    [(Sev.critical,
      { type := "strategy_significant_pnl"
        amount := some (.num amount)
        pnl := some (.num (pnlOf d))
        pnlPercent := some (pnlPercentOf d)
        pnlToAmountRatio := some (pnlRatio amount d)
        threshold := some (.num CONFIG.thresholds.largeStrategyPnlPercent)
        vault := d.vault
        strategy := d.strategy
        manager := d.manager
        timestamp := e.timestamp })]
  else []) ++
  (if jsGt (txnPercent amount d) (.num (qMul CONFIG.thresholds.largeStrategyMovePercent 100)) then
    [(Sev.critical,
      { type := "large_strategy_withdrawal"
        amount := some (.num amount)
        percentage := some (txnPercent amount d)
        threshold := some (.num (qMul CONFIG.thresholds.largeStrategyMovePercent 100))
        vault := d.vault
        strategy := d.strategy
        manager := d.manager
        timestamp := e.timestamp })]
  else [])

/-- Source `handleDirectStrategyWithdraw` (src/alert-service.ts:358-399): one
unconditional Info candidate plus only the StrategyPnL check. -/
def handleDirectStrategyWithdraw (e : VaultEvent) : List (Sev × AlertCandidate) :=
  let d := e.eventData
  let amount : ℚ := d.userAmountAssetWithdrawn.getD 0
  [(Sev.info,
    { type := "direct_strategy_withdrawal"
      amount := some (.num amount)
      vault := d.vault
      strategy := d.strategy
      user := d.user
      percentageChange := some (pctChange d)
      pnl := some (.num (pnlOf d))
      pnlPercent := some (pnlPercentOf d)
      timestamp := e.timestamp })] ++
  (if jsGt (pnlRatio amount d) (.num CONFIG.thresholds.largeStrategyPnlPercent) then
    [(Sev.critical,
      { type := "strategy_significant_pnl"
        amount := some (.num amount)
        pnl := some (.num (pnlOf d))
        pnlPercent := some (pnlPercentOf d)
        pnlToAmountRatio := some (pnlRatio amount d)
        threshold := some (.num CONFIG.thresholds.largeStrategyPnlPercent)
        vault := d.vault
        strategy := d.strategy
        user := d.user
        timestamp := e.timestamp })]
  else [])

/-- The `switch (eventName)` dispatch of `handleVaultEvent`
(src/alert-service.ts:116-134): unrecognized kinds fall to the silent
default branch and yield no candidates. -/
def classifyEvent (e : VaultEvent) : List (Sev × AlertCandidate) :=
  match e.eventName with
  | "depositVaultEvent" => handleVaultDeposit e
  | "withdrawVaultEvent" => handleVaultWithdrawal e
  | "depositStrategyEvent" => handleStrategyDeposit e
  | "withdrawStrategyEvent" => handleStrategyWithdrawal e
  | "directWithdrawStrategyEvent" => handleDirectStrategyWithdraw e
  | _ => []

/-- The frequency key `` `${event.eventName}_${event.eventData.vault}` ``. -/
def freqKey (e : VaultEvent) : String :=
  e.eventName ++ "_" ++ e.eventData.vault

/-- Source `trackEventFrequency` (src/alert-service.ts:137-168), faithfully: the
new timestamp is pushed onto the stored array, the map is updated with the
entries strictly newer than `now - highFrequencyWindow`, but the
high-frequency check reads the length of the *unfiltered* pushed array. -/
def trackEventFrequency (counts : List (String × List Int)) (e : VaultEvent)
    (now : Int) : List (String × List Int) × List (Sev × AlertCandidate) :=
  let key := freqKey e
  let events := ((lookupEntry counts key).getD []) ++ [now]
  let windowStart := now - CONFIG.thresholds.highFrequencyWindow
  let counts2 := setEntry counts key (events.filter (fun time => windowStart < time))
  if CONFIG.thresholds.highFrequencyEvents ≤ events.length then
    (counts2,
     [(Sev.critical,
       { type := "high_frequency"
         eventType := some e.eventName
         vault := e.eventData.vault
         rate := some events.length
         threshold := some (.num (CONFIG.thresholds.highFrequencyEvents : ℚ))
         timeWindow := some "1 minute"
         timestamp := e.timestamp })])
  else (counts2, [])

/-- Source `shouldRateLimit` (src/alert-service.ts:425-435): returns `true`
(suppress) and leaves the map untouched when a stored timestamp exists, is
truthy (nonzero) and is newer than `now - delay`; otherwise records `now`
and returns `false` (admit).  Result: (suppressed?, updated map). -/
def shouldRateLimit (alerts : List (String × Int)) (key : String)
    (delay now : Int) : Bool × List (String × Int) :=
  match lookupEntry alerts key with
  | some lastAlert =>
      if lastAlert ≠ 0 ∧ now - lastAlert < delay then (true, alerts)
      else (false, setEntry alerts key now)
  | none => (false, setEntry alerts key now)

/-- The rate-limit class key: `` `info_${type}_${vault}` `` in
`sendInfoAlert`, `` `critical_${type}_${vault}` `` in `sendCriticalAlert`. -/
def alertKey (sc : Sev × AlertCandidate) : String :=
  match sc.1 with
  | .info => "info_" ++ sc.2.type ++ "_" ++ sc.2.vault
  | .critical => "critical_" ++ sc.2.type ++ "_" ++ sc.2.vault

/-- The cooldown used by each send path. -/
def delayFor : Sev → Int
  | .info => CONFIG.rateLimiting.infoDelay
  | .critical => CONFIG.rateLimiting.criticalDelay

/-- One `sendInfoAlert`/`sendCriticalAlert` call up to the rate-limit
decision: the formatted network send itself is I/O and is modelled
separately by the pure formatters below.  Returns the updated timestamp map
and the candidate if it was admitted. -/
def dispatchCandidate (alerts : List (String × Int)) (sc : Sev × AlertCandidate)
    (now : Int) : List (String × Int) × List (Sev × AlertCandidate) :=
  let r := shouldRateLimit alerts (alertKey sc) (delayFor sc.1) now
  (r.2, if r.1 then [] else [sc])

/-- The sends issued while one event is processed, in source order. -/
def dispatchAll (alerts : List (String × Int)) (cs : List (Sev × AlertCandidate))
    (now : Int) : List (String × Int) × List (Sev × AlertCandidate) :=
  match cs with
  | [] => (alerts, [])
  | c :: rest =>
      let r1 := dispatchCandidate alerts c now
      let r2 := dispatchAll r1.1 rest now
      (r2.1, r1.2 ++ r2.2)

/-- The mutable service state: `lastAlerts` and `eventCounts`. -/
structure ServiceState where
  lastAlerts : List (String × Int)
  eventCounts : List (String × List Int)
deriving DecidableEq, Repr

/-- All candidates an event gives rise to, in source order: first the
possible HighFrequency candidate from `trackEventFrequency`, then the
dispatch on event kind. -/
def producedCandidates (s : ServiceState) (e : VaultEvent) (now : Int) :
    List (Sev × AlertCandidate) :=
  (trackEventFrequency s.eventCounts e now).2 ++ classifyEvent e

/-- Source `handleVaultEvent` (src/alert-service.ts:109-135) with the mutable maps
threaded explicitly: tracks frequency, classifies, and pushes every
candidate through its rate-limited send path.  Returns the new state and
the admitted candidates. -/
def handleVaultEvent (s : ServiceState) (e : VaultEvent) (now : Int) :
    ServiceState × List (Sev × AlertCandidate) :=
  let tr := trackEventFrequency s.eventCounts e now
  let dis := dispatchAll s.lastAlerts (tr.2 ++ classifyEvent e) now
  ({ lastAlerts := dis.1, eventCounts := tr.1 }, dis.2)

/-- Decides whether `p` is a prefix of `s` (character lists). -/
def charsHavePrefix (p s : List Char) : Bool :=
  match p, s with
  | [], _ => true
  | _ :: _, [] => false
  | a :: ps, b :: ss => a = b && charsHavePrefix ps ss

/-- Decides whether `p` occurs as a contiguous substring of `s`. -/
def charsContain (p s : List Char) : Bool :=
  match s with
  | [] => charsHavePrefix p []
  | _ :: ss => charsHavePrefix p s || charsContain p ss

/-- Models JS `String.prototype.startsWith`. -/
def strStarts (s pat : String) : Bool :=
  charsHavePrefix pat.data s.data

/-- Models JS `String.prototype.includes`. -/
def strContains (s pat : String) : Bool :=
  charsContain pat.data s.data

/-- Deterministic stand-in for the locale/float renderings `toLocaleString`
and `toFixed`: the exact digits are immaterial to every claim here (only
determinism and the layout are), so one fixed exact rendering is used. -/
def jsRender (x : JsNum) : String :=
  match x with
  | .num q => if q.den = 1 then toString q.num else toString q.num ++ "/" ++ toString q.den
  | .inf => "Infinity"
  | .negInf => "-Infinity"
  | .nan => "NaN"

/-- A JS template interpolation of a possibly-undefined number: `undefined`
renders as the string "undefined". -/
def renderOptNum (o : Option JsNum) : String :=
  (o.map jsRender).getD "undefined"

/-- A JS template interpolation of a possibly-undefined string. -/
def renderOptStr (o : Option String) : String :=
  o.getD "undefined"

/-- A JS template interpolation of a possibly-undefined count. -/
def renderOptNat (o : Option Nat) : String :=
  (o.map toString).getD "undefined"

/-- JS truthiness of an optional string: `undefined` and the empty string
are falsy. -/
def optTruthy (o : Option String) : Bool :=
  match o with
  | some s => s ≠ ""
  | none => false

/-- JS `x >= 0` where `x` may be `undefined` (a comparison with `undefined`
is false). -/
def jsGeZero (o : Option JsNum) : Bool :=
  match o with
  | some x => jsGe x (.num 0)
  | none => false

/-- Source `shortAddress` helper of the formatters: a falsy (absent or
empty) address renders as "Unknown", otherwise the first and last eight
characters around an ellipsis. -/
def shortAddress (addr : Option String) : String :=
  match addr with
  | some a => if a = "" then "Unknown" else a.take 8 ++ "..." ++ a.takeRight 8
  | none => "Unknown"

/-- Source `formatInfoMessage` (src/alert-service.ts:437-508).  The source
samples the wall clock with `new Date().toLocaleTimeString()`; that sample
is the explicit `timeStr` argument here.  The candidate's own `timestamp`
field is never read. -/
def formatInfoMessage (data : AlertCandidate) (timeStr : String) : String :=
  let changeIcon := if jsGeZero data.percentageChange then "📈" else "📉"
  let changeText := changeIcon ++ " " ++ renderOptNum data.percentageChange ++ "%"
  let pnlText :=
    match data.pnl, data.pnlPercent with
    | some p, some pp =>
        let pnlIcon := if jsGe p (.num 0) then "💚" else "❤️"
        let sign := if jsGe p (.num 0) then "+" else ""
        "\n├ PnL: " ++ pnlIcon ++ " " ++ sign ++ jsRender p ++ " (" ++ sign ++
          jsRender pp ++ "%)"
    | _, _ => ""
  match data.type with
  | "vault_deposit" =>
      "💰 <b>Vault Deposit</b>\n├ Amount: " ++ renderOptNum data.amount ++
      "\n├ Change: " ++ changeText ++
      "\n├ User: <code>" ++ shortAddress data.user ++
      "</code>\n├ Vault: <code>" ++ shortAddress (some data.vault) ++
      "</code>\n└ Time: " ++ timeStr
  | "vault_withdrawal" =>
      "💸 <b>Vault Withdrawal</b>\n├ Amount: " ++ renderOptNum data.amount ++
      "\n├ Change: " ++ changeText ++
      "\n├ User: <code>" ++ shortAddress data.user ++
      "</code>\n├ Vault: <code>" ++ shortAddress (some data.vault) ++
      "</code>\n└ Time: " ++ timeStr
  | "strategy_deposit" =>
      "📈 <b>Strategy Deposit</b>\n├ Amount: " ++ renderOptNum data.amount ++
      "\n├ Size: " ++ changeText ++ pnlText ++
      "\n├ Strategy: <code>" ++ shortAddress data.strategy ++
      "</code>\n├ Vault: <code>" ++ shortAddress (some data.vault) ++
      "</code>\n├ Manager: <code>" ++ shortAddress data.manager ++
      "</code>\n└ Time: " ++ timeStr
  | "strategy_withdrawal" =>
      "📉 <b>Strategy Withdrawal</b>\n├ Amount: " ++ renderOptNum data.amount ++
      "\n├ Size: " ++ changeText ++ pnlText ++
      "\n├ Strategy: <code>" ++ shortAddress data.strategy ++
      "</code>\n├ Vault: <code>" ++ shortAddress (some data.vault) ++
      "</code>\n├ Manager: <code>" ++ shortAddress data.manager ++
      "</code>\n└ Time: " ++ timeStr
  | "direct_strategy_withdrawal" =>
      "🔄 <b>Direct Strategy Withdrawal</b>\n├ Amount: " ++ renderOptNum data.amount ++
      "\n├ Change: " ++ changeText ++ pnlText ++
      "\n├ User: <code>" ++ shortAddress data.user ++
      "</code>\n├ Strategy: <code>" ++ shortAddress data.strategy ++
      "</code>\n├ Vault: <code>" ++ shortAddress (some data.vault) ++
      "</code>\n└ Time: " ++ timeStr
  | _ => "ℹ️ <b>Vault Event</b>\n└ Type: " ++ data.type

/-- Source `formatCriticalMessage` (src/alert-service.ts:511-581).  The
wall-clock sample `new Date().toLocaleString()` is the explicit `timeStr`
argument; the usernames come from the environment-derived `CONFIG.telegram`
and are explicit arguments too.  The candidate's own `timestamp` field is
never read. -/
def formatCriticalMessage (data : AlertCandidate) (timeStr usernameA usernameB : String) :
    String :=
  let header := "🚨🚨🚨 <b>CRITICAL ALERT</b> 🚨🚨🚨\n@" ++ usernameA ++ "\n@" ++
    usernameB ++ "\n\n"
  let body :=
    if strStarts data.type "large_" then
      let action := if strContains data.type "deposit" then "DEPOSIT" else "WITHDRAWAL"
      let context := if strContains data.type "vault" then "VAULT" else "STRATEGY"
      "💥 <b>LARGE " ++ context ++ " " ++ action ++ "</b>\n" ++
      "├ Amount: <b>" ++ renderOptNum data.amount ++ "</b>\n" ++
      "├ Percentage: <b>" ++ renderOptNum data.percentage ++ "%</b>\n" ++
      "├ Threshold: " ++ renderOptNum data.threshold ++ "%\n" ++
      (if optTruthy data.user then
        "├ User: <code>" ++ shortAddress data.user ++ "</code>\n" else "") ++
      (if optTruthy data.strategy then
        "├ Strategy: <code>" ++ shortAddress data.strategy ++ "</code>\n" else "") ++
      (if optTruthy data.manager then
        "├ Manager: <code>" ++ shortAddress data.manager ++ "</code>\n" else "") ++
      "├ Vault: <code>" ++ shortAddress (some data.vault) ++ "</code>"
    else if data.type = "strategy_significant_pnl" then
      let pnlIcon := if jsGeZero data.pnl then "💚 GAIN" else "❤️ LOSS"
      let sign := if jsGeZero data.pnl then "+" else ""
      "📊 <b>STRATEGY SIGNIFICANT PnL " ++ pnlIcon ++ "</b>\n" ++
      "├ PnL: <b>" ++ sign ++ renderOptNum data.pnl ++ " (" ++ sign ++
        renderOptNum data.pnlPercent ++ "%)</b>\n" ++
      "├ Amount: " ++ renderOptNum data.amount ++ "\n" ++
      "├ PnL Ratio: " ++
        renderOptNum (data.pnlToAmountRatio.map (fun r => jsMul r (.num 100))) ++ "%\n" ++
      "├ Threshold: " ++
        renderOptNum (data.threshold.map (fun t => jsMul t (.num 100))) ++ "%\n" ++
      "├ Strategy: <code>" ++ shortAddress data.strategy ++ "</code>\n" ++
      "├ Vault: <code>" ++ shortAddress (some data.vault) ++ "</code>\n" ++
      (if optTruthy data.manager then
        "├ Manager: <code>" ++ shortAddress data.manager ++ "</code>" else "") ++
      (if optTruthy data.user then
        "├ User: <code>" ++ shortAddress data.user ++ "</code>" else "")
    else if data.type = "high_frequency" then
      "⚡ <b>HIGH FREQUENCY ACTIVITY</b>\n" ++
      "├ Event Type: " ++ renderOptStr data.eventType ++ "\n" ++
      "├ Rate: <b>" ++ renderOptNat data.rate ++ " events/" ++
        renderOptStr data.timeWindow ++ "</b>\n" ++
      "├ Threshold: " ++ renderOptNum data.threshold ++ " events/" ++
        renderOptStr data.timeWindow ++ "\n" ++
      "├ Vault: <code>" ++ shortAddress (some data.vault) ++ "</code>"
    else
      "🔧 <b>UNKNOWN CRITICAL EVENT</b>\n├ Type: " ++ data.type
  header ++ body ++ "\n└ Time: " ++ timeStr

/-- The alert types of a candidate list, in order. -/
def typesOf (l : List (Sev × AlertCandidate)) : List String :=
  l.map (fun sc => sc.2.type)

/-- An optional number is finite when present. -/
def finOpt (o : Option JsNum) : Bool :=
  o.elim true JsNum.isFinite

/-- All amount and percentage fields of a candidate are finite when present:
the deposited/withdrawn amount, the percentage change, the transaction
percentage, the configured threshold, the PnL and the PnL percentage.  (The
`pnlToAmountRatio` field is not included: §4.3 of the specification itself
declares it infinite when the amount is zero.) -/
def candMetricsFinite (c : AlertCandidate) : Bool :=
  finOpt c.amount && finOpt c.percentageChange && finOpt c.percentage &&
  finOpt c.threshold && finOpt c.pnl && finOpt c.pnlPercent

/-- Repeated `trackEventFrequency` calls for one event shape at the given
sequence of clock readings, collecting every emitted candidate. -/
def recordCalls (counts : List (String × List Int)) (e : VaultEvent) :
    List Int → List (String × List Int) × List (Sev × AlertCandidate)
  | [] => (counts, [])
  | t :: ts =>
      let r1 := trackEventFrequency counts e t
      let r2 := recordCalls r1.1 e ts
      (r2.1, r1.2 ++ r2.2)

/-- A vault deposit whose `vaultAssetTotalValueBefore` is present and zero:
the nullish default does not apply, so the metric divides by zero. -/
def evC1zero : VaultEvent :=
  { eventName := "depositVaultEvent"
    eventData :=
      { vault := "VaultAAABBBCCCDDD"
        user := some "UserAAABBBCCCDDD"
        userAmountAssetDeposited := some 5
        vaultAssetTotalValueBefore := some 0
        vaultAssetTotalValueAfter := some 100 }
    timestamp := "2025-01-01T00:00:00Z" }

/-- A vault deposit with a nonzero `vaultAssetTotalValueBefore`. -/
def evC1fin : VaultEvent :=
  { eventName := "depositVaultEvent"
    eventData :=
      { vault := "VaultAAABBBCCCDDD"
        user := some "UserAAABBBCCCDDD"
        userAmountAssetDeposited := some 5
        vaultAssetTotalValueBefore := some 1000
        vaultAssetTotalValueAfter := some 1005 }
    timestamp := "2025-01-01T00:00:00Z" }

/-- A fixed event shape for exercising the frequency tracker. -/
def evC2 : VaultEvent :=
  { eventName := "depositVaultEvent"
    eventData := { vault := "VaultAAABBBCCCDDD" }
    timestamp := "2025-01-01T00:00:00Z" }

/-- The ten clock readings of the C2 scenario: nine calls inside 8,000 ms
and a tenth at 61,000 ms, so the ten events span 61,000 ms. -/
def timesC2 : List Int :=
  [0, 1000, 2000, 3000, 4000, 5000, 6000, 7000, 8000, 61000]

/-- A strategy deposit with `amount = 0` and `pnl = 0` (`0/0` is `NaN`). -/
def evC4nan : VaultEvent :=
  { eventName := "depositStrategyEvent"
    eventData :=
      { vault := "VaultAAABBBCCCDDD"
        strategy := some "StratAAABBBCCCDDD"
        manager := some "MgrAAABBBCCCDDDEE"
        vaultAmountAssetDeposited := some 0
        vaultAssetTotalValueBefore := some 1000
        vaultAssetTotalValueAfter := some 1000 }
    timestamp := "2025-01-01T00:00:00Z" }

/-- A strategy deposit with `amount = 0` and a nonzero PnL. -/
def evC4inf : VaultEvent :=
  { eventName := "depositStrategyEvent"
    eventData :=
      { vault := "VaultAAABBBCCCDDD"
        strategy := some "StratAAABBBCCCDDD"
        manager := some "MgrAAABBBCCCDDDEE"
        vaultAmountAssetDeposited := some 0
        vaultAssetTotalValueBefore := some 1000
        vaultAssetTotalValueAfter := some 1100 }
    timestamp := "2025-01-01T00:00:00Z" }

/-- An event whose kind is none of the five recognized kinds. -/
def evC5 : VaultEvent :=
  { eventName := "weirdEvent"
    eventData := { vault := "v" }
    timestamp := "2025-01-01T00:00:00Z" }

/-- A fully populated Info candidate for exercising the formatter. -/
def candC6 : AlertCandidate :=
  { type := "vault_deposit"
    vault := "VaultAAABBBCCCDDD"
    amount := some (.num 5)
    user := some "UserAAABBBCCCDDD"
    percentageChange := some (.num 10)
    timestamp := "2025-01-01T00:00:00Z" }

/-- A vault deposit whose transaction percent is exactly the 10 threshold
(`100 / 1000 * 100 = 10`). -/
def evC7 : VaultEvent :=
  { eventName := "depositVaultEvent"
    eventData :=
      { vault := "VaultAAABBBCCCDDD"
        user := some "UserAAABBBCCCDDD"
        userAmountAssetDeposited := some 100
        vaultAssetTotalValueBefore := some 1000
        vaultAssetTotalValueAfter := some 1100 }
    timestamp := "2025-01-01T00:00:00Z" }

/-- The strategy deposit of the specification's worked example:
`amount = 150`, `totalValueBefore = 1000`, `totalValueAfter = 1200`. -/
def evC8 : VaultEvent :=
  { eventName := "depositStrategyEvent"
    eventData :=
      { vault := "VaultAAABBBCCCDDD"
        strategy := some "StratAAABBBCCCDDD"
        manager := some "MgrAAABBBCCCDDDEE"
        vaultAmountAssetDeposited := some 150
        vaultAssetTotalValueBefore := some 1000
        vaultAssetTotalValueAfter := some 1200 }
    timestamp := "2025-01-01T00:00:00Z" }

/-- An accepted event whose `vault` string is empty: nothing in
`processLogLine` or the handlers rejects it. -/
def evC9empty : VaultEvent :=
  { eventName := "depositVaultEvent"
    eventData :=
      { vault := ""
        user := some "UserAAABBBCCCDDD"
        userAmountAssetDeposited := some 5
        vaultAssetTotalValueBefore := some 1000
        vaultAssetTotalValueAfter := some 1005 }
    timestamp := "2025-01-01T00:00:00Z" }

/-- An accepted event with a non-empty vault. -/
def evC9ok : VaultEvent :=
  { eventName := "depositVaultEvent"
    eventData :=
      { vault := "VaultAAABBBCCCDDD"
        user := some "UserAAABBBCCCDDD"
        userAmountAssetDeposited := some 5
        vaultAssetTotalValueBefore := some 1000
        vaultAssetTotalValueAfter := some 1005 }
    timestamp := "2025-01-01T00:00:00Z" }

/-- A vault deposit used to exercise the frame property. -/
def evC10 : VaultEvent :=
  { eventName := "depositVaultEvent"
    eventData :=
      { vault := "VaultAAABBBCCCDDD"
        user := some "UserAAABBBCCCDDD"
        userAmountAssetDeposited := some 5
        vaultAssetTotalValueBefore := some 1000
        vaultAssetTotalValueAfter := some 1005 }
    timestamp := "2025-01-01T00:00:00Z" }

/-!  General lemmas about the embedding. -/

theorem qSub_eq (a b : ℚ) : qSub a b = a - b := by
  rw [qSub, Rat.mkRat_eq_divInt]
  conv_rhs => rw [← Rat.num_divInt_den a, ← Rat.num_divInt_den b]
  rw [Rat.divInt_sub_divInt _ _ (Int.natCast_ne_zero.mpr a.den_nz) (Int.natCast_ne_zero.mpr b.den_nz)]
  push_cast
  ring_nf

theorem qMul_eq (a b : ℚ) : qMul a b = a * b := by
  rw [qMul, Rat.mkRat_eq_divInt]
  conv_rhs => rw [← Rat.num_divInt_den a, ← Rat.num_divInt_den b]
  rw [Rat.divInt_mul_divInt']
  push_cast
  ring_nf

theorem qInv_eq (b : ℚ) : qInv b = b⁻¹ := by
  rw [qInv, Rat.mkRat_eq_divInt, Rat.inv_def']
  rcases lt_trichotomy b.num 0 with h | h | h
  · rw [Int.sign_eq_neg_one_of_neg h, Int.ofNat_natAbs_of_nonpos (le_of_lt h),
      show (-1 : ℤ) * (b.den : ℤ) = -(b.den : ℤ) by ring, Rat.neg_divInt_neg]
  · rw [h]
    simp
  · rw [Int.sign_eq_one_of_pos h, Int.natAbs_of_nonneg (le_of_lt h)]
    ring_nf

theorem qDiv_eq (a b : ℚ) : qDiv a b = a / b := by
  rw [qDiv, qMul_eq, qInv_eq, div_eq_mul_inv]

theorem jsGt_self (x : JsNum) : jsGt x x = false := by
  cases x <;> simp [jsGt]

theorem lookupEntry_setEntry_ne {α : Type} (m : List (String × α)) (k k2 : String)
    (v : α) (h : k2 ≠ k) : lookupEntry (setEntry m k v) k2 = lookupEntry m k2 := by
  induction m with
  | nil => simp [setEntry, lookupEntry, Ne.symm h]
  | cons p rest ih =>
      obtain ⟨pk, pv⟩ := p
      by_cases hk : pk = k
      · subst hk
        simp [setEntry, lookupEntry, Ne.symm h]
      · simp [setEntry, lookupEntry, hk]
        split <;> simp_all [lookupEntry]

theorem shouldRateLimit_frame (alerts : List (String × Int)) (key k2 : String)
    (delay now : Int) (h : k2 ≠ key) :
    lookupEntry (shouldRateLimit alerts key delay now).2 k2 = lookupEntry alerts k2 := by
  unfold shouldRateLimit
  cases hl : lookupEntry alerts key with
  | none => simpa using lookupEntry_setEntry_ne alerts key k2 now h
  | some t =>
      simp only
      split
      · rfl
      · simpa using lookupEntry_setEntry_ne alerts key k2 now h

theorem dispatchAll_frame (cs : List (Sev × AlertCandidate)) (alerts : List (String × Int))
    (now : Int) (k2 : String) (h : ∀ sc ∈ cs, k2 ≠ alertKey sc) :
    lookupEntry (dispatchAll alerts cs now).1 k2 = lookupEntry alerts k2 := by
  induction cs generalizing alerts with
  | nil => rfl
  | cons c rest ih =>
      have hc := h c (List.mem_cons_self c rest)
      have hrest : ∀ sc ∈ rest, k2 ≠ alertKey sc := fun sc hm => h sc (List.mem_cons_of_mem c hm)
      show lookupEntry (dispatchAll (dispatchCandidate alerts c now).1 rest now).1 k2 = _
      rw [ih (dispatchCandidate alerts c now).1 hrest]
      exact shouldRateLimit_frame alerts (alertKey c) k2 (delayFor c.1) now hc

theorem handleVaultDeposit_vault (e : VaultEvent) :
    ∀ sc ∈ handleVaultDeposit e, sc.2.vault = e.eventData.vault := by
  intro sc hm
  simp only [handleVaultDeposit, List.mem_append, List.mem_singleton] at hm
  rcases hm with h | h
  · rw [h]
  · split at h
    · rw [List.mem_singleton.mp h]
    · exact absurd h (List.not_mem_nil sc)

theorem handleVaultWithdrawal_vault (e : VaultEvent) :
    ∀ sc ∈ handleVaultWithdrawal e, sc.2.vault = e.eventData.vault := by
  intro sc hm
  simp only [handleVaultWithdrawal, List.mem_append, List.mem_singleton] at hm
  rcases hm with h | h
  · rw [h]
  · split at h
    · rw [List.mem_singleton.mp h]
    · exact absurd h (List.not_mem_nil sc)

theorem handleStrategyDeposit_vault (e : VaultEvent) :
    ∀ sc ∈ handleStrategyDeposit e, sc.2.vault = e.eventData.vault := by
  intro sc hm
  simp only [handleStrategyDeposit, List.mem_append, List.mem_singleton] at hm
  rcases hm with (h | h) | h
  · rw [h]
  · split at h
    · rw [List.mem_singleton.mp h]
    · exact absurd h (List.not_mem_nil sc)
  · split at h
    · rw [List.mem_singleton.mp h]
    · exact absurd h (List.not_mem_nil sc)

theorem handleStrategyWithdrawal_vault (e : VaultEvent) :
    ∀ sc ∈ handleStrategyWithdrawal e, sc.2.vault = e.eventData.vault := by
  intro sc hm
  simp only [handleStrategyWithdrawal, List.mem_append, List.mem_singleton] at hm
  rcases hm with (h | h) | h
  · rw [h]
  · split at h
    · rw [List.mem_singleton.mp h]
    · exact absurd h (List.not_mem_nil sc)
  · split at h
    · rw [List.mem_singleton.mp h]
    · exact absurd h (List.not_mem_nil sc)

theorem handleDirectStrategyWithdraw_vault (e : VaultEvent) :
    ∀ sc ∈ handleDirectStrategyWithdraw e, sc.2.vault = e.eventData.vault := by
  intro sc hm
  simp only [handleDirectStrategyWithdraw, List.mem_append, List.mem_singleton] at hm
  rcases hm with h | h
  · rw [h]
  · split at h
    · rw [List.mem_singleton.mp h]
    · exact absurd h (List.not_mem_nil sc)

theorem trackEventFrequency_candidates (counts : List (String × List Int))
    (e : VaultEvent) (now : Int) :
    ∀ sc ∈ (trackEventFrequency counts e now).2,
      sc.1 = Sev.critical ∧ sc.2.type = "high_frequency" ∧ sc.2.vault = e.eventData.vault := by
  intro sc hm
  simp only [trackEventFrequency] at hm
  split at hm
  · rw [List.mem_singleton.mp hm]
    exact ⟨rfl, rfl, rfl⟩
  · exact absurd hm (List.not_mem_nil sc)

theorem classifyEvent_vault (e : VaultEvent) :
    ∀ sc ∈ classifyEvent e, sc.2.vault = e.eventData.vault := by
  intro sc hm
  unfold classifyEvent at hm
  split at hm
  · exact handleVaultDeposit_vault e sc hm
  · exact handleVaultWithdrawal_vault e sc hm
  · exact handleStrategyDeposit_vault e sc hm
  · exact handleStrategyWithdrawal_vault e sc hm
  · exact handleDirectStrategyWithdraw_vault e sc hm
  · exact absurd hm (List.not_mem_nil sc)

theorem producedCandidates_vault (s : ServiceState) (e : VaultEvent) (now : Int) :
    ∀ sc ∈ producedCandidates s e now, sc.2.vault = e.eventData.vault := by
  intro sc hm
  rcases List.mem_append.mp hm with h | h
  · exact (trackEventFrequency_candidates s.eventCounts e now sc h).2.2
  · exact classifyEvent_vault e sc h

theorem totalBefore_ne_zero (d : EventData) (h : d.vaultAssetTotalValueBefore ≠ some 0) :
    totalBefore d ≠ 0 := by
  unfold totalBefore
  cases hv : d.vaultAssetTotalValueBefore with
  | none => simp
  | some q =>
      simp only [Option.getD_some]
      intro h0
      exact h (by rw [hv, h0])

theorem isFinite_num (q : ℚ) : (JsNum.num q).isFinite = true := rfl

theorem jsDiv_num_num (a b : ℚ) (hb : b ≠ 0) :
    jsDiv (.num a) (.num b) = .num (qDiv a b) := by
  simp only [jsDiv]
  rw [if_neg hb]

theorem pctChange_finite (d : EventData) (h : totalBefore d ≠ 0) :
    (pctChange d).isFinite = true := by
  unfold pctChange
  rw [jsDiv_num_num _ _ h]
  rfl

theorem txnPercent_finite (amount : ℚ) (d : EventData) (h : totalBefore d ≠ 0) :
    (txnPercent amount d).isFinite = true := by
  unfold txnPercent
  rw [jsDiv_num_num _ _ h]
  rfl

theorem pnlPercentOf_finite (d : EventData) (h : totalBefore d ≠ 0) :
    (pnlPercentOf d).isFinite = true := by
  unfold pnlPercentOf
  rw [jsDiv_num_num _ _ h]
  rfl

theorem handleVaultDeposit_finite (e : VaultEvent) (h : totalBefore e.eventData ≠ 0) :
    ∀ sc ∈ handleVaultDeposit e, candMetricsFinite sc.2 = true := by
  intro sc hm
  simp only [handleVaultDeposit, List.mem_append, List.mem_singleton] at hm
  rcases hm with hs | hs
  · rw [hs]
    simp [candMetricsFinite, finOpt, isFinite_num, pctChange_finite _ h]
  · split at hs
    · rw [List.mem_singleton.mp hs]
      simp [candMetricsFinite, finOpt, isFinite_num, txnPercent_finite _ _ h]
    · exact absurd hs (List.not_mem_nil sc)

theorem handleVaultWithdrawal_finite (e : VaultEvent) (h : totalBefore e.eventData ≠ 0) :
    ∀ sc ∈ handleVaultWithdrawal e, candMetricsFinite sc.2 = true := by
  intro sc hm
  simp only [handleVaultWithdrawal, List.mem_append, List.mem_singleton] at hm
  rcases hm with hs | hs
  · rw [hs]
    simp [candMetricsFinite, finOpt, isFinite_num, pctChange_finite _ h]
  · split at hs
    · rw [List.mem_singleton.mp hs]
      simp [candMetricsFinite, finOpt, isFinite_num, txnPercent_finite _ _ h]
    · exact absurd hs (List.not_mem_nil sc)

theorem handleStrategyDeposit_finite (e : VaultEvent) (h : totalBefore e.eventData ≠ 0) :
    ∀ sc ∈ handleStrategyDeposit e, candMetricsFinite sc.2 = true := by
  intro sc hm
  simp only [handleStrategyDeposit, List.mem_append, List.mem_singleton] at hm
  rcases hm with (hs | hs) | hs
  · rw [hs]
    simp [candMetricsFinite, finOpt, isFinite_num, txnPercent_finite _ _ h,
      pnlPercentOf_finite _ h]
  · split at hs
    · rw [List.mem_singleton.mp hs]
      simp [candMetricsFinite, finOpt, isFinite_num, pnlPercentOf_finite _ h]
    · exact absurd hs (List.not_mem_nil sc)
  · split at hs
    · rw [List.mem_singleton.mp hs]
      simp [candMetricsFinite, finOpt, isFinite_num, txnPercent_finite _ _ h]
    · exact absurd hs (List.not_mem_nil sc)

theorem handleStrategyWithdrawal_finite (e : VaultEvent) (h : totalBefore e.eventData ≠ 0) :
    ∀ sc ∈ handleStrategyWithdrawal e, candMetricsFinite sc.2 = true := by
  intro sc hm
  simp only [handleStrategyWithdrawal, List.mem_append, List.mem_singleton] at hm
  rcases hm with (hs | hs) | hs
  · rw [hs]
    simp [candMetricsFinite, finOpt, isFinite_num, txnPercent_finite _ _ h,
      pnlPercentOf_finite _ h]
  · split at hs
    · rw [List.mem_singleton.mp hs]
      simp [candMetricsFinite, finOpt, isFinite_num, pnlPercentOf_finite _ h]
    · exact absurd hs (List.not_mem_nil sc)
  · split at hs
    · rw [List.mem_singleton.mp hs]
      simp [candMetricsFinite, finOpt, isFinite_num, txnPercent_finite _ _ h]
    · exact absurd hs (List.not_mem_nil sc)

theorem handleDirectStrategyWithdraw_finite (e : VaultEvent) (h : totalBefore e.eventData ≠ 0) :
    ∀ sc ∈ handleDirectStrategyWithdraw e, candMetricsFinite sc.2 = true := by
  intro sc hm
  simp only [handleDirectStrategyWithdraw, List.mem_append, List.mem_singleton] at hm
  rcases hm with hs | hs
  · rw [hs]
    simp [candMetricsFinite, finOpt, isFinite_num, pctChange_finite _ h,
      pnlPercentOf_finite _ h]
  · split at hs
    · rw [List.mem_singleton.mp hs]
      simp [candMetricsFinite, finOpt, isFinite_num, pnlPercentOf_finite _ h]
    · exact absurd hs (List.not_mem_nil sc)

theorem trackEventFrequency_finite (counts : List (String × List Int))
    (e : VaultEvent) (now : Int) :
    ∀ sc ∈ (trackEventFrequency counts e now).2, candMetricsFinite sc.2 = true := by
  intro sc hm
  simp only [trackEventFrequency] at hm
  split at hm
  · rw [List.mem_singleton.mp hm]
    simp [candMetricsFinite, finOpt, isFinite_num]
  · exact absurd hm (List.not_mem_nil sc)

theorem classifyEvent_finite (e : VaultEvent) (h : totalBefore e.eventData ≠ 0) :
    ∀ sc ∈ classifyEvent e, candMetricsFinite sc.2 = true := by
  intro sc hm
  unfold classifyEvent at hm
  split at hm
  · exact handleVaultDeposit_finite e h sc hm
  · exact handleVaultWithdrawal_finite e h sc hm
  · exact handleStrategyDeposit_finite e h sc hm
  · exact handleStrategyWithdrawal_finite e h sc hm
  · exact handleDirectStrategyWithdraw_finite e h sc hm
  · exact absurd hm (List.not_mem_nil sc)

/-!  Claim theorems. -/

theorem totalBefore_default_one (d : EventData)
    (h : d.vaultAssetTotalValueBefore = none) : totalBefore d = 1 := by
  rw [totalBefore, h]
  rfl

theorem pnlRatio_zero (d : EventData) (hp : pnlOf d ≠ 0) : pnlRatio 0 d = .inf := by
  unfold pnlRatio
  simp only [jsDiv]
  rw [if_pos trivial]
  rcases lt_trichotomy (pnlOf d) 0 with h | h | h
  · rw [if_neg (not_lt.mpr (le_of_lt h)), if_pos h]
    rfl
  · exact absurd h hp
  · rw [if_pos h]
    rfl

/-- Claim C1 (corrected).  The source guards the denominator with `?? 1`,
which defaults only when `vaultAssetTotalValueBefore` is absent — not when
it is present and zero.  Amended statement: for every decoded event whose
`vaultAssetTotalValueBefore` is not present-and-zero, every amount and
percentage carried by a produced AlertCandidate (amount, percentageChange,
percentage, threshold, pnl, pnlPercent) is a finite number.  The
`pnlToAmountRatio` field is excluded, as §4.3 itself declares it infinite
for zero amounts. -/
theorem C1_theorem (s : ServiceState) (e : VaultEvent) (now : Int)
    (h : e.eventData.vaultAssetTotalValueBefore ≠ some 0) :
    (producedCandidates s e now).all (fun sc => candMetricsFinite sc.2) = true := by
  refine List.all_eq_true.mpr ?_
  intro sc hm
  rcases List.mem_append.mp hm with hx | hx
  · exact trackEventFrequency_finite s.eventCounts e now sc hx
  · exact classifyEvent_finite e (totalBefore_ne_zero e.eventData h) sc hx

/-- Claim C1 witness: the amended theorem applied to a concrete vault
deposit with a nonzero `vaultAssetTotalValueBefore`. -/
theorem C1_witness :
    (producedCandidates ⟨[], []⟩ evC1fin 0).all (fun sc => candMetricsFinite sc.2) = true :=
  C1_theorem ⟨[], []⟩ evC1fin 0 (by decide)

/-- Claim C1 counterexample: a decoded vault deposit whose
`vaultAssetTotalValueBefore` is present and zero produces an Info candidate
whose `percentageChange` is `Infinity` — not finite, contradicting the
claim that the denominator defaults to 1 "whenever absent or zero". -/
theorem C1_counterexample :
    evC1zero.eventData.vaultAssetTotalValueBefore = some 0 ∧
    ((producedCandidates ⟨[], []⟩ evC1zero 0).any
      (fun sc => sc.2.percentageChange = some JsNum.inf)) = true := by
  constructor
  · rfl
  · decide

/-- Claim C2 (code bug).  The claim (and §4.2 of the spec) requires the
high-frequency count to be the exact count over the trailing 60,000 ms, so
10 events spread across 61,000 ms never trigger.  The code instead checks
`events.length` on the array *before* the window filter is applied (the
filtered array is stored in the map, but the unfiltered one is counted), so
ten calls at 0, 1000, …, 8000 and 61,000 ms do emit a HighFrequency
candidate with reported rate 10 even though only 8 timestamps lie inside
the trailing window. -/
theorem C2_theorem :
    ((recordCalls [] evC2 timesC2).2.map (fun sc => (sc.2.type, sc.2.rate)))
        = [("high_frequency", some 10)]
    ∧ (((lookupEntry (recordCalls [] evC2 timesC2).1 (freqKey evC2)).getD []).length = 8)
    ∧ 8 < CONFIG.thresholds.highFrequencyEvents := by
  refine ⟨by decide, by decide, by decide⟩

/-- Claim C3 (corrected).  The code admits when `now - last >= delay`, so
at an elapsed time exactly equal to the cooldown the call succeeds — the
claim's "exceeds" (strict) fails at that boundary.  Amended statement: an
admit call succeeds iff no prior timestamp exists, or the stored timestamp
is 0 (JS truthiness treats it as absent), or the elapsed time is at least
the cooldown; on success the stored timestamp is set to `now`, on failure
the map is untouched.  (`shouldRateLimit` returning `false` is admission.) -/
theorem C3_theorem (alerts : List (String × Int)) (k : String) (delay now : Int) :
    ((shouldRateLimit alerts k delay now).1 = false ↔
      (lookupEntry alerts k).elim True (fun t => t = 0 ∨ delay ≤ now - t))
    ∧ ((shouldRateLimit alerts k delay now).1 = false →
        (shouldRateLimit alerts k delay now).2 = setEntry alerts k now)
    ∧ ((shouldRateLimit alerts k delay now).1 = true →
        (shouldRateLimit alerts k delay now).2 = alerts) := by
  unfold shouldRateLimit
  cases hl : lookupEntry alerts k with
  | none => simp
  | some t =>
      simp only [Option.elim_some]
      by_cases h1 : t ≠ 0 ∧ now - t < delay
      · rw [if_pos h1]
        obtain ⟨h1a, h1b⟩ := h1
        refine ⟨?_, ?_, fun _ => rfl⟩
        · constructor
          · intro hf
            simp at hf
          · intro hd
            rcases hd with hd | hd
            · exact absurd hd h1a
            · omega
        · intro hf
          simp at hf
      · rw [if_neg h1]
        push_neg at h1
        refine ⟨?_, fun _ => rfl, ?_⟩
        · constructor
          · intro _
            by_cases hz : t = 0
            · exact Or.inl hz
            · exact Or.inr (h1 hz)
          · intro _
            rfl
        · intro ht
          simp at ht

/-- Claim C3 witness: the amended theorem applied at a stored timestamp of
1000 and a second call 300,001 ms later. -/
theorem C3_witness :
    ((shouldRateLimit [("k", 1000)] "k" 300000 301001).1 = false ↔
      (lookupEntry ([("k", 1000)] : List (String × Int)) "k").elim True
        (fun t => t = 0 ∨ 300000 ≤ 301001 - t))
    ∧ ((shouldRateLimit [("k", 1000)] "k" 300000 301001).1 = false →
        (shouldRateLimit [("k", 1000)] "k" 300000 301001).2
          = setEntry ([("k", 1000)] : List (String × Int)) "k" 301001)
    ∧ ((shouldRateLimit [("k", 1000)] "k" 300000 301001).1 = true →
        (shouldRateLimit [("k", 1000)] "k" 300000 301001).2
          = ([("k", 1000)] : List (String × Int))) :=
  C3_theorem [("k", 1000)] "k" 300000 301001

/-- Claim C3 counterexample: with a stored timestamp 1000 and a second
call exactly 300,000 ms later, the elapsed time does not exceed the
cooldown, yet `shouldRateLimit` returns `false` — the call is admitted,
refuting the claimed "if and only if ... exceeds". -/
theorem C3_counterexample :
    (shouldRateLimit [("k", 1000)] "k" 300000 301000).1 = false ∧
    ¬ (300000 < (301000 : Int) - 1000) := by
  refine ⟨by decide, by decide⟩

/-- Claim C4 (corrected).  When `amount = 0` the ratio `|pnl / amount|` is
infinite only when `pnl ≠ 0`; JS gives `0/0 = NaN`, `Math.abs(NaN) = NaN`,
and `NaN > threshold` is false, so with `pnl = 0` no StrategyPnL candidate
is emitted.  Amended statement: for the three strategy handlers, an event
with amount 0 and nonzero pnl always emits a StrategyPnL candidate (and no
exception is ever raised — all functions are total). -/
theorem C4_theorem (e : VaultEvent) :
    ((e.eventData.vaultAmountAssetDeposited.getD 0 = 0) → pnlOf e.eventData ≠ 0 →
      "strategy_significant_pnl" ∈ typesOf (handleStrategyDeposit e))
    ∧ ((e.eventData.vaultAmountAssetWithdrawn.getD 0 = 0) → pnlOf e.eventData ≠ 0 →
      "strategy_significant_pnl" ∈ typesOf (handleStrategyWithdrawal e))
    ∧ ((e.eventData.userAmountAssetWithdrawn.getD 0 = 0) → pnlOf e.eventData ≠ 0 →
      "strategy_significant_pnl" ∈ typesOf (handleDirectStrategyWithdraw e)) := by
  refine ⟨?_, ?_, ?_⟩ <;>
    · intro h0 hp
      simp only [typesOf, handleStrategyDeposit, handleStrategyWithdrawal,
        handleDirectStrategyWithdraw, h0, pnlRatio_zero e.eventData hp]
      simp [jsGt]

/-- Claim C4 witness: a strategy deposit with amount 0 and pnl 100 emits
the StrategyPnL candidate. -/
theorem C4_witness :
    "strategy_significant_pnl" ∈ typesOf (handleStrategyDeposit evC4inf) :=
  (C4_theorem evC4inf).1 (by decide) (by decide)

/-- Claim C4 counterexample: a strategy deposit with amount 0 and pnl 0
(ratio `NaN`) emits no StrategyPnL candidate, refuting "always trips". -/
theorem C4_counterexample :
    evC4nan.eventData.vaultAmountAssetDeposited.getD 0 = 0 ∧
    "strategy_significant_pnl" ∉ typesOf (handleStrategyDeposit evC4nan) := by
  refine ⟨by decide, by decide⟩

/-- Claim C5 (corrected).  An unrecognized event kind produces no
candidate from the kind dispatch, but `trackEventFrequency` runs before the
dispatch for *every* event and can emit a HighFrequency candidate.  Amended
statement: for an unrecognized kind every produced candidate is a
HighFrequency candidate, and when the tracker's (pre-filter) count stays
below the threshold none at all is produced; no exception is raised. -/
theorem C5_theorem (s : ServiceState) (e : VaultEvent) (now : Int)
    (h : e.eventName ∉ ["depositVaultEvent", "withdrawVaultEvent", "depositStrategyEvent",
      "withdrawStrategyEvent", "directWithdrawStrategyEvent"]) :
    ((producedCandidates s e now).all (fun sc => sc.2.type == "high_frequency") = true)
    ∧ (((lookupEntry s.eventCounts (freqKey e)).getD []).length + 1 <
          CONFIG.thresholds.highFrequencyEvents →
        producedCandidates s e now = []) := by
  have hclass : classifyEvent e = [] := by
    unfold classifyEvent
    split <;> simp_all
  constructor
  · rw [producedCandidates, hclass, List.append_nil]
    refine List.all_eq_true.mpr ?_
    intro sc hm
    have := (trackEventFrequency_candidates s.eventCounts e now sc hm).2.1
    simp [this]
  · intro hlt
    rw [producedCandidates, hclass, List.append_nil]
    have hcond : ¬ (CONFIG.thresholds.highFrequencyEvents ≤
        (((lookupEntry s.eventCounts (freqKey e)).getD []) ++ [now]).length) := by
      simp only [List.length_append, List.length_singleton]
      omega
    simp only [trackEventFrequency]
    rw [if_neg hcond]

/-- Claim C5 witness: the amended theorem applied to an unknown-kind event
against the empty state. -/
theorem C5_witness :
    ((producedCandidates ⟨[], []⟩ evC5 0).all (fun sc => sc.2.type == "high_frequency") = true)
    ∧ (((lookupEntry (⟨[], []⟩ : ServiceState).eventCounts (freqKey evC5)).getD []).length + 1 <
          CONFIG.thresholds.highFrequencyEvents →
        producedCandidates ⟨[], []⟩ evC5 0 = []) :=
  C5_theorem ⟨[], []⟩ evC5 0 (by decide)

/-- Claim C5 counterexample: an unknown-kind event whose frequency key
already holds nine recent timestamps produces a (HighFrequency) candidate —
not zero candidates as claimed. -/
theorem C5_counterexample :
    evC5.eventName ∉ ["depositVaultEvent", "withdrawVaultEvent", "depositStrategyEvent",
      "withdrawStrategyEvent", "directWithdrawStrategyEvent"] ∧
    producedCandidates ⟨[], [("weirdEvent_v", [1, 2, 3, 4, 5, 6, 7, 8, 9])]⟩ evC5 10 ≠ [] := by
  refine ⟨by decide, by decide⟩

/-- Claim C6 (corrected).  The formatters are not functions of the
candidate alone: they render `new Date()` — the wall clock at formatting
time, modelled by the explicit `timeStr` argument — and the critical
formatter also the environment-configured usernames; the candidate's own
embedded `timestamp` field is never read.  Amended statement: the output is
determined by the candidate (minus its ignored timestamp field), the
sampled wall-clock string and the usernames; two calls agreeing on those
agree byte-for-byte. -/
theorem C6_theorem (c : AlertCandidate) (ts timeStr uA uB : String) :
    formatInfoMessage { c with timestamp := ts } timeStr = formatInfoMessage c timeStr
    ∧ formatCriticalMessage { c with timestamp := ts } timeStr uA uB
        = formatCriticalMessage c timeStr uA uB := by
  cases c
  exact ⟨rfl, rfl⟩

/-- Claim C6 counterexample: the same candidate formatted at two different
wall-clock samples yields different bytes, refuting idempotence as a
function of the candidate alone. -/
theorem C6_counterexample :
    formatInfoMessage candC6 "10:00:00" ≠ formatInfoMessage candC6 "10:00:01" := by
  decide

/-- Claim C7 (confirmed).  All classifier threshold comparisons are
strict: a transaction percent exactly equal to the large-transaction
threshold emits no LargeTransaction candidate (all four large variants),
a pnl-to-amount ratio exactly equal to the PnL threshold emits no
StrategyPnL candidate (all three strategy handlers), while a window count
exactly equal to `highFrequencyEvents` does emit HighFrequency (`>=`). -/
theorem C7_theorem (e : VaultEvent) (s : ServiceState) (now : Int) :
    (txnPercent (e.eventData.userAmountAssetDeposited.getD 0) e.eventData
        = .num (qMul CONFIG.thresholds.largeVaultDepositPercent 100) →
      "large_vault_deposit" ∉ typesOf (handleVaultDeposit e))
    ∧ (txnPercent (e.eventData.userAmountAssetWithdrawn.getD 0) e.eventData
        = .num (qMul CONFIG.thresholds.largeVaultWithdrawalPercent 100) →
      "large_vault_withdrawal" ∉ typesOf (handleVaultWithdrawal e))
    ∧ (pnlRatio (e.eventData.vaultAmountAssetDeposited.getD 0) e.eventData
        = .num CONFIG.thresholds.largeStrategyPnlPercent →
      "strategy_significant_pnl" ∉ typesOf (handleStrategyDeposit e))
    ∧ (txnPercent (e.eventData.vaultAmountAssetDeposited.getD 0) e.eventData
        = .num (qMul CONFIG.thresholds.largeStrategyMovePercent 100) →
      "large_strategy_deposit" ∉ typesOf (handleStrategyDeposit e))
    ∧ (pnlRatio (e.eventData.vaultAmountAssetWithdrawn.getD 0) e.eventData
        = .num CONFIG.thresholds.largeStrategyPnlPercent →
      "strategy_significant_pnl" ∉ typesOf (handleStrategyWithdrawal e))
    ∧ (txnPercent (e.eventData.vaultAmountAssetWithdrawn.getD 0) e.eventData
        = .num (qMul CONFIG.thresholds.largeStrategyMovePercent 100) →
      "large_strategy_withdrawal" ∉ typesOf (handleStrategyWithdrawal e))
    ∧ (pnlRatio (e.eventData.userAmountAssetWithdrawn.getD 0) e.eventData
        = .num CONFIG.thresholds.largeStrategyPnlPercent →
      "strategy_significant_pnl" ∉ typesOf (handleDirectStrategyWithdraw e))
    ∧ (((lookupEntry s.eventCounts (freqKey e)).getD []).length + 1
        = CONFIG.thresholds.highFrequencyEvents →
      "high_frequency" ∈ typesOf (trackEventFrequency s.eventCounts e now).2) := by
  refine ⟨?_, ?_, ?_, ?_, ?_, ?_, ?_, ?_⟩
  · intro h hmem
    simp only [typesOf, handleVaultDeposit, h, jsGt_self, List.map_append,
      List.mem_append] at hmem
    rcases hmem with hmem | hmem
    · simp at hmem
    · simp at hmem
  · intro h hmem
    simp only [typesOf, handleVaultWithdrawal, h, jsGt_self, List.map_append,
      List.mem_append] at hmem
    rcases hmem with hmem | hmem
    · simp at hmem
    · simp at hmem
  · intro h hmem
    simp only [typesOf, handleStrategyDeposit, h, jsGt_self, List.map_append,
      List.mem_append] at hmem
    rcases hmem with (hmem | hmem) | hmem
    · simp at hmem
    · simp at hmem
    · split at hmem <;> simp at hmem
  · intro h hmem
    simp only [typesOf, handleStrategyDeposit, h, jsGt_self, List.map_append,
      List.mem_append] at hmem
    rcases hmem with (hmem | hmem) | hmem
    · simp at hmem
    · split at hmem <;> simp at hmem
    · simp at hmem
  · intro h hmem
    simp only [typesOf, handleStrategyWithdrawal, h, jsGt_self, List.map_append,
      List.mem_append] at hmem
    rcases hmem with (hmem | hmem) | hmem
    · simp at hmem
    · simp at hmem
    · split at hmem <;> simp at hmem
  · intro h hmem
    simp only [typesOf, handleStrategyWithdrawal, h, jsGt_self, List.map_append,
      List.mem_append] at hmem
    rcases hmem with (hmem | hmem) | hmem
    · simp at hmem
    · split at hmem <;> simp at hmem
    · simp at hmem
  · intro h hmem
    simp only [typesOf, handleDirectStrategyWithdraw, h, jsGt_self, List.map_append,
      List.mem_append] at hmem
    rcases hmem with hmem | hmem
    · simp at hmem
    · simp at hmem
  · intro h
    have hlen : (((lookupEntry s.eventCounts (freqKey e)).getD []) ++ [now]).length
        = CONFIG.thresholds.highFrequencyEvents := by
      simpa using h
    simp only [typesOf, trackEventFrequency, hlen]
    rw [if_pos (le_refl _)]
    simp

/-- Claim C7 witness: a deposit of 100 against a vault of 1000 sits
exactly at the 10-percent threshold and emits no LargeTransaction; a tenth
tracked event at an exact count of 10 emits HighFrequency. -/
theorem C7_witness :
    "large_vault_deposit" ∉ typesOf (handleVaultDeposit evC7)
    ∧ "high_frequency" ∈ typesOf
        (trackEventFrequency [(freqKey evC7, [1, 2, 3, 4, 5, 6, 7, 8, 9])] evC7 10).2 :=
  ⟨(C7_theorem evC7 ⟨[], []⟩ 0).1 (by decide),
   (C7_theorem evC7 ⟨[], [(freqKey evC7, [1, 2, 3, 4, 5, 6, 7, 8, 9])]⟩ 10).2.2.2.2.2.2.2
     (by decide)⟩

/-- Claim C8 (confirmed).  The strategy deposit with amount 150,
totalValueBefore 1000, totalValueAfter 1200 yields pnl 200, pnlPercent 20,
transactionPercent 15, and produces exactly three candidates in order: the
unconditional Info, the StrategyPnL critical (ratio 4/3 > 1/100) and the
LargeTransaction critical (15 > 10) — the two critical checks fire
independently. -/
theorem C8_theorem :
    typesOf (handleStrategyDeposit evC8)
        = ["strategy_deposit", "strategy_significant_pnl", "large_strategy_deposit"]
    ∧ (handleStrategyDeposit evC8).map (fun sc => sc.1) = [Sev.info, Sev.critical, Sev.critical]
    ∧ pnlOf evC8.eventData = 200
    ∧ pnlPercentOf evC8.eventData = .num 20
    ∧ txnPercent 150 evC8.eventData = .num 15 := by
  refine ⟨by decide, by decide, by decide, by decide, by decide⟩

/-- Claim C9 (corrected).  Nothing in the decoder or the handlers checks
that `vault` is non-empty, so the claimed unconditional invariant fails.
Amended statement: every produced candidate's `vault` equals the event's
`eventData.vault`, hence is non-empty for every accepted event whose vault
is non-empty. -/
theorem C9_theorem (s : ServiceState) (e : VaultEvent) (now : Int)
    (ha : acceptsEvent e = true) (h : e.eventData.vault ≠ "") :
    (producedCandidates s e now).all
      (fun sc => sc.2.vault == e.eventData.vault && sc.2.vault != "") = true := by
  refine List.all_eq_true.mpr ?_
  intro sc hm
  have hv := producedCandidates_vault s e now sc hm
  simp [hv, h]

/-- Claim C9 witness: the amended theorem applied to an accepted deposit
with a non-empty vault. -/
theorem C9_witness :
    (producedCandidates ⟨[], []⟩ evC9ok 0).all
      (fun sc => sc.2.vault == evC9ok.eventData.vault && sc.2.vault != "") = true :=
  C9_theorem ⟨[], []⟩ evC9ok 0 (by decide) (by decide)

/-- Claim C9 counterexample: a line whose decoded event carries
`vault = ""` passes the decoder's only filter (the service tag) and
produces a candidate with an empty `vault` field. -/
theorem C9_counterexample :
    acceptsEvent evC9empty = true ∧
    (producedCandidates ⟨[], []⟩ evC9empty 0).any (fun sc => sc.2.vault = "") = true := by
  refine ⟨by decide, by decide⟩

/-- Claim C10 (confirmed).  Processing one event touches only the
frequency window of that event's own key and the rate-limit entries keyed
by the attempted candidates (whose keys embed the event's own vault, third
conjunct); every other frequency window and rate-limit timestamp is
unchanged, so distinct event types and distinct vaults are rate-limited
independently. -/
theorem C10_theorem (s : ServiceState) (e : VaultEvent) (now : Int) :
    (∀ k, k ≠ freqKey e →
      lookupEntry (handleVaultEvent s e now).1.eventCounts k = lookupEntry s.eventCounts k)
    ∧ (∀ k, (∀ sc ∈ producedCandidates s e now, k ≠ alertKey sc) →
      lookupEntry (handleVaultEvent s e now).1.lastAlerts k = lookupEntry s.lastAlerts k)
    ∧ (∀ sc ∈ producedCandidates s e now, sc.2.vault = e.eventData.vault) := by
  refine ⟨?_, ?_, producedCandidates_vault s e now⟩
  · intro k hk
    show lookupEntry (trackEventFrequency s.eventCounts e now).1 k = _
    simp only [trackEventFrequency]
    split <;> exact lookupEntry_setEntry_ne s.eventCounts (freqKey e) k _ hk
  · intro k hk
    show lookupEntry (dispatchAll s.lastAlerts
        ((trackEventFrequency s.eventCounts e now).2 ++ classifyEvent e) now).1 k = _
    exact dispatchAll_frame _ s.lastAlerts now k hk

/-- Claim C10 witness: the frame theorem applied to a concrete deposit
and unrelated keys, which are untouched. -/
theorem C10_witness :
    lookupEntry (handleVaultEvent ⟨[("other", 5)], [("otherKey", [1])]⟩ evC10 0).1.eventCounts
        "otherKey" = lookupEntry [("otherKey", [1])] "otherKey"
    ∧ lookupEntry (handleVaultEvent ⟨[("other", 5)], [("otherKey", [1])]⟩ evC10 0).1.lastAlerts
        "other" = lookupEntry [("other", 5)] "other" :=
  ⟨(C10_theorem ⟨[("other", 5)], [("otherKey", [1])]⟩ evC10 0).1 "otherKey" (by decide),
   (C10_theorem ⟨[("other", 5)], [("otherKey", [1])]⟩ evC10 0).2.1 "other" (by decide)⟩

end Voltr
